import Mathlib

/-!
Shallow embedding of the instance connection lifecycle state machine and the
webhook delivery engine of the ayasya-wagw gateway
(`src/services/whatsappService.js` and `src/services/webhookService.js`,
configuration in `src/config/config.js`).

JavaScript `Map` objects are modelled as association lists with unique keys,
the Prisma persistence gateway as an association list of database records,
HTTP and transport outcomes as explicit oracle parameters, and `setTimeout`
scheduling as an explicit list of pending timers.  All definitions are
executable and follow the control flow of the source line by line.
-/

namespace Wagw

/-! ### Association-list maps (model of JS `Map` and of Prisma tables) -/

def alookup {α : Type} (l : List (String × α)) (k : String) : Option α :=
  match l with
  | [] => none
  | (k', v) :: rest => if k' = k then some v else alookup rest k

def ainsert {α : Type} (l : List (String × α)) (k : String) (v : α) :
    List (String × α) :=
  match l with
  | [] => [(k, v)]
  | (k', v') :: rest =>
      if k' = k then (k, v) :: rest else (k', v') :: ainsert rest k v

def aerase {α : Type} (l : List (String × α)) (k : String) :
    List (String × α) :=
  match l with
  | [] => []
  | (k', v') :: rest => if k' = k then rest else (k', v') :: aerase rest k

theorem alookup_ainsert_self {α : Type} (l : List (String × α)) (k : String)
    (v : α) : alookup (ainsert l k v) k = some v := by
  induction l with
  | nil => simp [ainsert, alookup]
  | cons h t ih =>
      by_cases hk : h.1 = k
      · simp [ainsert, alookup, hk]
      · simp [ainsert, alookup, hk, ih]

theorem alookup_ainsert_ne {α : Type} (l : List (String × α)) (k k' : String)
    (v : α) (hk : k ≠ k') : alookup (ainsert l k v) k' = alookup l k' := by
  induction l with
  | nil => simp [ainsert, alookup, hk]
  | cons h t ih =>
      by_cases hh : h.1 = k
      · simp [ainsert, alookup, hh, hk]
      · simp [ainsert, alookup, hh, ih]

/-! ### HTTP outcomes

`axios.post` resolves exactly when the endpoint answered with a 2xx status
(the axios default `validateStatus`); a non-2xx response rejects with
`error.response.status` set, and a network error / timeout rejects with no
response object, which the source turns into `statusCode = 0` via
`error.response?.status || 0`. -/

inductive HttpResult : Type
  | response (status : Nat) (body : String)
  | networkError (msg : String)
deriving DecidableEq, Repr

def resolves : HttpResult → Bool
  | .response s _ => decide (200 ≤ s ∧ s < 300)
  | .networkError _ => false

def respStatus : HttpResult → Nat
  | .response s _ => s
  | .networkError _ => 0

def respBody : HttpResult → String
  | .response _ b => b
  | .networkError _ => ""

def errStatus : HttpResult → Nat
  | .response s _ => s
  | .networkError _ => 0

def errMsg : HttpResult → String
  | .response s _ => "Request failed with status code " ++ toString s
  | .networkError m => m

/-! ### Webhook delivery engine data model (`webhookService.js`) -/

structure Payload where
  event : String
  instanceId : Option String
  data : List (String × Option String)
deriving DecidableEq, Repr

structure WebhookLog where
  webhookId : String
  instanceId : Option String
  url : String
  event : String
  payload : Payload
  status : String
  statusCode : Nat
  response : Option String
  error : Option String
  attempts : Nat
deriving DecidableEq, Repr

structure QueueEntry where
  url : String
  payload : Payload
  instanceId : Option String
  attempts : Nat
  nextRetry : Nat
deriving DecidableEq, Repr

structure Timer where
  webhookId : String
  delay : Nat
deriving DecidableEq, Repr

/-- One `axios.post` performed by the engine; `retryAttempt` is the
`X-Retry-Attempt` header (absent on the initial attempt), `delay` the
`setTimeout` delay waited before this post (0 for the initial attempt). -/
structure SentRequest where
  url : String
  webhookId : String
  instanceId : Option String
  retryAttempt : Option Nat
  delay : Nat
  payload : Payload
deriving DecidableEq, Repr

/-- In-memory state of `WebhookService` (constructor at
`webhookService.js`): `webhookQueue`, `retryAttempts`, the persisted
`webhookLog` table, the pending `setTimeout` timers, the trace of HTTP posts
performed, and the count of generated delivery ids. -/
structure WebhookState where
  queue : List (String × QueueEntry)
  retryAttempts : List (String × Nat)
  logs : List WebhookLog
  timers : List Timer
  sent : List SentRequest
  nextWid : Nat
deriving DecidableEq, Repr

def emptyWebhookState : WebhookState := ⟨[], [], [], [], [], 0⟩

/-- Environment oracle: `wid n` is the n-th delivery id generated by
`Date.now() + Math.random()`, `http n` the outcome of the n-th HTTP post. -/
structure Env where
  wid : Nat → String
  http : Nat → HttpResult

def maxRetries : Nat := 3

def retryDelay : Nat := 5000

/-- Model of `WebhookService.logWebhook`: `prisma.webhookLog.create`
appends a fresh row (its own try/catch swallows persistence errors). -/
def logWebhook (st : WebhookState) (l : WebhookLog) : WebhookState :=
  { st with logs := st.logs ++ [l] }

/-- Model of `WebhookService.updateWebhookLog`: `updateMany where webhookId`
rewrites every row carrying this delivery id in place. -/
def updateWebhookLog (st : WebhookState) (webhookId : String)
    (status : String) (statusCode : Nat) (response : Option String)
    (error : Option String) (attempts : Nat) : WebhookState :=
  { st with logs := st.logs.map fun l =>
      if l.webhookId = webhookId then
        { l with status := status, statusCode := statusCode,
                 response := response, error := error, attempts := attempts }
      else l }

/-- Model of `WebhookService.addToRetryQueue`: when fewer than `maxRetries`
retries are recorded for this id, store a queue entry with the incremented
retry counter and schedule a `setTimeout` with delay
`retryDelay * (attempts + 1)`. -/
def addToRetryQueue (st : WebhookState) (webhookId url : String)
    (payload : Payload) (instanceId : Option String) : WebhookState :=
  let attempts := (alookup st.retryAttempts webhookId).getD 0
  if attempts < maxRetries then
    { st with
      queue := ainsert st.queue webhookId
        ⟨url, payload, instanceId, attempts + 1, retryDelay * (attempts + 1)⟩,
      retryAttempts := ainsert st.retryAttempts webhookId (attempts + 1),
      timers := st.timers ++ [⟨webhookId, retryDelay * (attempts + 1)⟩] }
  else st

structure TriggerResult where
  success : Bool
  webhookId : String
  statusCode : Option Nat
  response : Option String
  error : Option String
deriving DecidableEq, Repr

/-- Model of `WebhookService.triggerWebhook`: generate a delivery id, post
once; on a 2xx response log a `success` row (attempts 1) and return
`success = true`; on any rejection log a `failed` row (attempts 1), enqueue
a retry, and return `success = false`.  The function is total — the JS
method catches every error and always returns an object. -/
def triggerWebhook (env : Env) (st : WebhookState) (url : String)
    (payload : Payload) (instanceId : Option String) :
    TriggerResult × WebhookState :=
  let webhookId := env.wid st.nextWid
  let outcome := env.http st.sent.length
  let st1 : WebhookState :=
    { st with nextWid := st.nextWid + 1,
              sent := st.sent ++ [⟨url, webhookId, instanceId, none, 0, payload⟩] }
  if resolves outcome then
    let st2 := logWebhook st1
      ⟨webhookId, instanceId, url, payload.event, payload, "success",
       respStatus outcome, some (respBody outcome), none, 1⟩
    (⟨true, webhookId, some (respStatus outcome), some (respBody outcome), none⟩, st2)
  else
    let st2 := logWebhook st1
      ⟨webhookId, instanceId, url, payload.event, payload, "failed",
       errStatus outcome, none, some (errMsg outcome), 1⟩
    let st3 := addToRetryQueue st2 webhookId url payload instanceId
    (⟨false, webhookId, none, none, some (errMsg outcome)⟩, st3)

/-- Model of `WebhookService.retryWebhook`, fired when the scheduled timer
for `webhookId` elapses after `d` ms: missing queue entries are ignored;
otherwise post again, on success update the log row in place and drop the
entry, on failure update the log row and either re-enqueue (attempts below
`maxRetries`) or drop the delivery for good. -/
def retryWebhook (env : Env) (st : WebhookState) (webhookId : String)
    (d : Nat) : WebhookState :=
  match alookup st.queue webhookId with
  | none => st
  | some wh =>
    let outcome := env.http st.sent.length
    let st1 : WebhookState :=
      { st with sent := st.sent ++
          [⟨wh.url, webhookId, wh.instanceId, some wh.attempts, d, wh.payload⟩] }
    if resolves outcome then
      let st2 := updateWebhookLog st1 webhookId "success" (respStatus outcome)
        (some (respBody outcome)) none wh.attempts
      { st2 with queue := aerase st2.queue webhookId,
                 retryAttempts := aerase st2.retryAttempts webhookId }
    else
      let st2 := updateWebhookLog st1 webhookId "failed" (errStatus outcome)
        none (some (errMsg outcome)) wh.attempts
      if wh.attempts < maxRetries then
        addToRetryQueue st2 webhookId wh.url wh.payload wh.instanceId
      else
        { st2 with queue := aerase st2.queue webhookId,
                   retryAttempts := aerase st2.retryAttempts webhookId }

/-- Drive the pending `setTimeout` timers in scheduling order (fuel-bounded;
the retry budget keeps every chain finite). -/
def runTimers (env : Env) : Nat → WebhookState → WebhookState
  | 0, st => st
  | fuel + 1, st =>
      match st.timers with
      | [] => st
      | t :: rest =>
          runTimers env fuel (retryWebhook env { st with timers := rest } t.webhookId t.delay)

/-! ### Instance data model (`whatsappService.js` and the Prisma `instance`
table) -/

/-- A row of the Prisma `instance` table, restricted to the fields the
connection state machine reads or writes. -/
structure DbInstance where
  id : String
  name : String
  status : String
  qrCode : Option String
  pairingCode : Option String
  phoneNumber : Option String
  webhookUrl : Option String
deriving DecidableEq, Repr

/-- Defaults supplied by the Prisma schema when a `create` omits a field
(the schema itself is not under `src/`; `qrCode`, `pairingCode` and
`phoneNumber` are nullable, `webhookUrl` unset, and the status default is
taken as `disconnected`). -/
def emptyDb (instanceId : String) : DbInstance :=
  ⟨instanceId, "Instance " ++ instanceId, "disconnected", none, none, none, none⟩

/-- Model of `prisma.instance.upsert`: apply `upd` to the existing row, or
insert `cr` when no row with this id exists. -/
def upsertDb (db : List (String × DbInstance)) (instanceId : String)
    (upd : DbInstance → DbInstance) (cr : DbInstance) :
    List (String × DbInstance) :=
  match alookup db instanceId with
  | some r => ainsert db instanceId (upd r)
  | none => ainsert db instanceId cr

/-- In-memory per-instance record stored in `this.instances`
(`whatsappService.js:513`); the socket handle is the id of the transport
session it wraps. -/
structure MemInstance where
  socket : Option Nat
  qr : Option String
  info : Option String
  appStateReady : Bool
  pairingCode : Option String
deriving DecidableEq, Repr

/-- Whole-system state: the `WhatsAppService` maps (`instances`,
`reconnectAttempts`, `appStateReady`), the persisted `instance` table, the
webhook engine state, plus traces of the external effects — transport
sessions created by `makeWASocket` (socket id paired with its instance id),
`logout` commands issued, on-disk session directories, and the `delay` /
`setTimeout` waits performed (in ms). -/
structure ServiceState where
  instances : List (String × MemInstance)
  reconnectAttempts : List (String × Nat)
  appStateReady : List (String × Bool)
  db : List (String × DbInstance)
  wh : WebhookState
  sessions : List (Nat × String)
  logouts : List Nat
  nextSocket : Nat
  sessionFiles : List String
  delays : List Nat
deriving DecidableEq, Repr

def emptyServiceState : ServiceState :=
  ⟨[], [], [], [], emptyWebhookState, [], [], 0, [], []⟩

/-- Transport sessions created for an instance and never ended by a
service-issued `logout`. -/
def liveSessions (st : ServiceState) (instanceId : String) : List Nat :=
  ((st.sessions.filter fun p => p.2 = instanceId).map Prod.fst).filter
    fun s => ¬ st.logouts.contains s

/-- Configuration (`src/config/config.js`): `maxReconnectAttempts` and the
fixed `reconnectInterval` in milliseconds. -/
def maxReconnectAttempts : Nat := 5

def reconnectInterval : Nat := 5000

/-- Model of `WhatsAppService.init(instanceId)` (`whatsappService.js:26`):
ensure the session directory exists, call `makeWASocket` (a fresh transport
session, unconditionally — there is no check for an existing live socket),
and overwrite the registry entry with
`(socket, qr: null, info: null, appStateReady: false, pairingCode: null)`.
The method takes only the instance id; the extra `true` argument passed at
`whatsappService.js:1216` is dropped by JavaScript. -/
def init (st : ServiceState) (instanceId : String) : ServiceState :=
  let st1 := if st.sessionFiles.contains instanceId then st
             else { st with sessionFiles := st.sessionFiles ++ [instanceId] }
  { st1 with
    sessions := st1.sessions ++ [(st1.nextSocket, instanceId)],
    instances := ainsert st1.instances instanceId
      ⟨some st1.nextSocket, none, none, false, none⟩,
    nextSocket := st1.nextSocket + 1 }

/-- Model of `WebhookService.triggerSessionStatus`
(`webhookService.js`, lines 3648–3675 of the concatenated source): look the
instance up in the database; when it has no `webhookUrl` return `null`
without any HTTP call or log write, otherwise build the
`session.status` envelope and delegate to `triggerWebhook`. -/
def triggerSessionStatus (env : Env) (st : ServiceState)
    (instanceId status : String)
    (additionalData : List (String × Option String)) :
    Option TriggerResult × ServiceState :=
  match alookup st.db instanceId with
  | none => (none, st)
  | some inst =>
    match inst.webhookUrl with
    | none => (none, st)
    | some url =>
      let payload : Payload :=
        ⟨"session.status", some instanceId, ("status", some status) :: additionalData⟩
      let r := triggerWebhook env st.wh url payload (some instanceId)
      (some r.1, { st with wh := r.2 })

/-- Model of `WebhookService.triggerMessageReceived` (same guard as every
other `trigger*` method of the service): skip entirely when the instance
has no `webhookUrl`. -/
def triggerMessageReceived (env : Env) (st : ServiceState)
    (instanceId : String) (messageData : List (String × Option String)) :
    Option TriggerResult × ServiceState :=
  match alookup st.db instanceId with
  | none => (none, st)
  | some inst =>
    match inst.webhookUrl with
    | none => (none, st)
    | some url =>
      let payload : Payload := ⟨"message.received", some instanceId, messageData⟩
      let r := triggerWebhook env st.wh url payload (some instanceId)
      (some r.1, { st with wh := r.2 })

/-- Model of the `if (this.instances.has(instanceId)) { mutate the entry }`
pattern used throughout `whatsappService.js`. -/
def setMem (st : ServiceState) (instanceId : String)
    (f : MemInstance → MemInstance) : ServiceState :=
  match alookup st.instances instanceId with
  | some m => { st with instances := ainsert st.instances instanceId (f m) }
  | none => st

/-- Stand-in for `qrcode.toDataURL` (external library), injective on the
raw QR payload. -/
def dataUrl (s : String) : String := "data:" ++ s

/-- Model of `(user?.id || '').split('@')[0] || null`
(`whatsappService.js:646`). -/
def phoneOf : Option String → Option String
  | none => none
  | some uid =>
      let p := (uid.splitOn "@").headD ""
      if p = "" then none else some p

/-- QR branch of `handleConnectionUpdate` (`whatsappService.js:534`): render
the QR, upsert the row to `status = qr` with the new `qrCode` (the update
does not touch `pairingCode`), mirror the QR into memory, and emit a
`session.status = qr` webhook. -/
def qrBlock (env : Env) (st : ServiceState) (instanceId qrRaw : String) :
    ServiceState :=
  let qrCode := dataUrl qrRaw
  let db1 := upsertDb st.db instanceId
    (fun r => { r with status := "qr", qrCode := some qrCode })
    { emptyDb instanceId with status := "qr", qrCode := some qrCode }
  let st1 := { st with db := db1 }
  let st2 := setMem st1 instanceId fun m => { m with qr := some qrCode }
  (triggerSessionStatus env st2 instanceId "qr"
    [("qrCode", some qrCode)]).2

/-- Close branch of `handleConnectionUpdate` (`whatsappService.js:565`):
upsert `status = disconnected` clearing both codes, clear the in-memory
pairing code, emit `session.status = disconnected` with the reason, then
either schedule a reconnect (recoverable and attempts below the maximum:
increment the counter, wait the fixed `reconnectInterval`, call `init`) or
stop retrying — and on logout additionally remove the session directory and
null out the in-memory socket, QR and info. -/
def closeBlock (env : Env) (st : ServiceState) (instanceId : String)
    (loggedOut : Bool) : ServiceState :=
  let shouldReconnect := !loggedOut
  let attempts := (alookup st.reconnectAttempts instanceId).getD 0
  let db1 := upsertDb st.db instanceId
    (fun r => { r with status := "disconnected", qrCode := none,
                       pairingCode := none })
    { emptyDb instanceId with status := "disconnected" }
  let st1 := { st with db := db1 }
  let st2 := setMem st1 instanceId fun m => { m with pairingCode := none }
  let st3 := (triggerSessionStatus env st2 instanceId "disconnected"
    [("reason", some (if shouldReconnect then "connection_lost" else "logged_out"))]).2
  if shouldReconnect && attempts < maxReconnectAttempts then
    let st4 := { st3 with
      reconnectAttempts := ainsert st3.reconnectAttempts instanceId (attempts + 1),
      delays := st3.delays ++ [reconnectInterval] }
    init st4 instanceId
  else
    let st4 := { st3 with
      reconnectAttempts := aerase st3.reconnectAttempts instanceId }
    if !shouldReconnect then
      let st5 := { st4 with
        sessionFiles := st4.sessionFiles.filter fun f => f ≠ instanceId }
      setMem st5 instanceId fun m =>
        { m with socket := none, qr := none, info := none }
    else st4

/-- Open branch of `handleConnectionUpdate` (`whatsappService.js:632`):
reset the reconnect counter, upsert `status = connected` with the phone
number, clearing `qrCode` (the update does not touch `pairingCode`), clear
the in-memory QR, and emit `session.status = connected`.  The app-state
readiness timeout and the session blob snapshot are side channels not
touched by any claim and are omitted. -/
def openBlock (env : Env) (st : ServiceState) (instanceId : String)
    (user : Option String) : ServiceState :=
  let st1 := { st with
    reconnectAttempts := ainsert st.reconnectAttempts instanceId 0 }
  let db1 := upsertDb st1.db instanceId
    (fun r => { r with status := "connected", phoneNumber := phoneOf user,
                       qrCode := none })
    { emptyDb instanceId with status := "connected",
                              phoneNumber := phoneOf user }
  let st2 := { st1 with db := db1 }
  let st3 := setMem st2 instanceId fun m => { m with info := user, qr := none }
  (triggerSessionStatus env st3 instanceId "connected"
    [("phoneNumber", phoneOf user)]).2

/-- Connecting branch of `handleConnectionUpdate`
(`whatsappService.js:691`). -/
def connectingBlock (env : Env) (st : ServiceState) (instanceId : String) :
    ServiceState :=
  let db1 := upsertDb st.db instanceId
    (fun r => { r with status := "connecting" })
    { emptyDb instanceId with status := "connecting" }
  let st1 := { st with db := db1 }
  (triggerSessionStatus env st1 instanceId "connecting" []).2

/-- A `connection.update` event as consumed by `handleConnectionUpdate`:
`loggedOut` is whether `lastDisconnect.error.output.statusCode` equals
`DisconnectReason.loggedOut`. -/
structure ConnUpdate where
  connection : Option String
  loggedOut : Bool
  qr : Option String
deriving DecidableEq, Repr

/-- Model of `WhatsAppService.handleConnectionUpdate`
(`whatsappService.js:528`): the QR block runs first, then the three
independent `if` branches on the `connection` field; `user` is
`socket.user` as read in the open branch. -/
def handleConnectionUpdate (env : Env) (st : ServiceState)
    (instanceId : String) (u : ConnUpdate) (user : Option String) :
    ServiceState :=
  let st1 := match u.qr with
    | some q => qrBlock env st instanceId q
    | none => st
  let st2 := if u.connection = some "close" then
      closeBlock env st1 instanceId u.loggedOut
    else st1
  let st3 := if u.connection = some "open" then
      openBlock env st2 instanceId user
    else st2
  if u.connection = some "connecting" then connectingBlock env st3 instanceId
  else st3

/-- Model of `WhatsAppService.requestPairingCode`
(`whatsappService.js:1210`).  When the instance is missing or has no
socket, reinitialize (`initOk` is whether the underlying `init` succeeds —
on failure its error propagates uncaught).  Then poll `socket.user` once a
second for at most 10 attempts (`userAfter` is when the user field appears,
`none` for never); the loop exhausting does NOT abort the call — the code
proceeds to `socket.requestPairingCode` regardless, whose outcome is
`pairingResult`.  On success store the code in memory and upsert it into
the database (without touching `qrCode`); on failure rethrow. -/
def requestPairingCode (st : ServiceState) (instanceId phoneNumber : String)
    (initOk : Bool) (userAfter : Option Nat)
    (pairingResult : Except String String) :
    Except String String × ServiceState :=
  let needInit := match alookup st.instances instanceId with
    | none => true
    | some m => m.socket.isNone
  match (if needInit then (if initOk then some (init st instanceId) else none)
         else some st) with
  | none => (.error "init failed", st)
  | some st1 =>
    match alookup st1.instances instanceId with
    | none => (.error "Failed to initialize instance for pairing code request", st1)
    | some m =>
      match m.socket with
      | none =>
          (.error "Failed to initialize instance for pairing code request", st1)
      | some _ =>
        let polls := match userAfter with
          | some k => min k 10
          | none => 10
        let st2 := { st1 with delays := st1.delays ++ List.replicate polls 1000 }
        match pairingResult with
        | .error e => (.error e, st2)
        | .ok code =>
          let mem1 := ainsert st2.instances instanceId { m with pairingCode := some code }
          let st3 := { st2 with instances := mem1 }
          let db1 := upsertDb st3.db instanceId
            (fun r => { r with pairingCode := some code })
            { emptyDb instanceId with pairingCode := some code }
          let st4 := { st3 with db := db1 }
          (.ok code, st4)

/-- Model of `WhatsAppService.deleteInstance` (`whatsappService.js:1269`):
when a live socket exists, `await socket.logout()` — NOT wrapped in
try/catch, so `logoutResult = error` propagates to the caller with no
cleanup performed; otherwise clear the three in-memory maps and best-effort
remove the session directory (`rmOk` is whether `fs.rmdir` succeeds; its
failure is caught and only logged). -/
def deleteInstance (st : ServiceState) (instanceId : String)
    (logoutResult : Except String Unit) (rmOk : Bool) :
    Except String Unit × ServiceState :=
  let afterLogout : Except String ServiceState :=
    match alookup st.instances instanceId with
    | some m =>
      match m.socket with
      | some s =>
        match logoutResult with
        | .error e => .error e
        | .ok _ => .ok { st with logouts := st.logouts ++ [s] }
      | none => .ok st
    | none => .ok st
  match afterLogout with
  | .error e => (.error e, st)
  | .ok st1 =>
    let st2 := { st1 with
      instances := aerase st1.instances instanceId,
      reconnectAttempts := aerase st1.reconnectAttempts instanceId,
      appStateReady := aerase st1.appStateReady instanceId }
    let st3 := if rmOk then
        { st2 with sessionFiles := st2.sessionFiles.filter fun f => f ≠ instanceId }
      else st2
    (.ok (), st3)

/-! ### Concrete fixtures used by witnesses and counterexamples -/

/-- Oracle whose endpoint always answers 200 and whose ids are w0, w1, …. -/
def envOk : Env := ⟨fun n => "w" ++ toString n, fun _ => .response 200 "ok"⟩

/-- Oracle whose endpoint is always unreachable. -/
def envFail : Env := ⟨fun n => "w" ++ toString n, fun _ => .networkError "boom"⟩

/-- Oracle whose endpoint returns 500 on the first post and 200 afterwards. -/
def envFlaky : Env :=
  ⟨fun n => "w" ++ toString n,
   fun n => if n = 0 then .response 500 "oops" else .response 200 "ok"⟩

/-- A service state holding one instance `a` with a live socket 0. -/
def stSock : ServiceState :=
  { emptyServiceState with
    instances := [("a", ⟨some 0, none, none, false, none⟩)],
    sessions := [(0, "a")],
    nextSocket := 1 }

/-- A persisted row for instance `a` with a configured `webhookUrl`. -/
def dbHook : DbInstance :=
  { emptyDb "a" with
    status := "connected",
    webhookUrl := some "https://example.com/hook" }

/-- Like `stSock`, with a persisted row whose `webhookUrl` is configured
and a session directory on disk. -/
def stHook : ServiceState :=
  { stSock with db := [("a", dbHook)], sessionFiles := ["a"] }

/-! ### Projection lemmas: which state fields each operation leaves alone -/

@[simp] theorem setMem_db (st : ServiceState) (instanceId : String)
    (f : MemInstance → MemInstance) : (setMem st instanceId f).db = st.db := by
  cases h : alookup st.instances instanceId <;> simp [setMem, h]

@[simp] theorem setMem_reconnectAttempts (st : ServiceState)
    (instanceId : String) (f : MemInstance → MemInstance) :
    (setMem st instanceId f).reconnectAttempts = st.reconnectAttempts := by
  cases h : alookup st.instances instanceId <;> simp [setMem, h]

@[simp] theorem setMem_delays (st : ServiceState) (instanceId : String)
    (f : MemInstance → MemInstance) :
    (setMem st instanceId f).delays = st.delays := by
  cases h : alookup st.instances instanceId <;> simp [setMem, h]

@[simp] theorem setMem_sessions (st : ServiceState) (instanceId : String)
    (f : MemInstance → MemInstance) :
    (setMem st instanceId f).sessions = st.sessions := by
  cases h : alookup st.instances instanceId <;> simp [setMem, h]

@[simp] theorem setMem_wh (st : ServiceState) (instanceId : String)
    (f : MemInstance → MemInstance) : (setMem st instanceId f).wh = st.wh := by
  cases h : alookup st.instances instanceId <;> simp [setMem, h]

@[simp] theorem setMem_sessionFiles (st : ServiceState) (instanceId : String)
    (f : MemInstance → MemInstance) :
    (setMem st instanceId f).sessionFiles = st.sessionFiles := by
  cases h : alookup st.instances instanceId <;> simp [setMem, h]

@[simp] theorem setMem_logouts (st : ServiceState) (instanceId : String)
    (f : MemInstance → MemInstance) :
    (setMem st instanceId f).logouts = st.logouts := by
  cases h : alookup st.instances instanceId <;> simp [setMem, h]

@[simp] theorem setMem_nextSocket (st : ServiceState) (instanceId : String)
    (f : MemInstance → MemInstance) :
    (setMem st instanceId f).nextSocket = st.nextSocket := by
  cases h : alookup st.instances instanceId <;> simp [setMem, h]

@[simp] theorem trigger_db (env : Env) (st : ServiceState)
    (instanceId status : String) (d : List (String × Option String)) :
    ((triggerSessionStatus env st instanceId status d).2).db = st.db := by
  cases h : alookup st.db instanceId with
  | none => simp [triggerSessionStatus, h]
  | some r => cases hu : r.webhookUrl <;> simp [triggerSessionStatus, h, hu]

@[simp] theorem trigger_instances (env : Env) (st : ServiceState)
    (instanceId status : String) (d : List (String × Option String)) :
    ((triggerSessionStatus env st instanceId status d).2).instances =
      st.instances := by
  cases h : alookup st.db instanceId with
  | none => simp [triggerSessionStatus, h]
  | some r => cases hu : r.webhookUrl <;> simp [triggerSessionStatus, h, hu]

@[simp] theorem trigger_reconnectAttempts (env : Env) (st : ServiceState)
    (instanceId status : String) (d : List (String × Option String)) :
    ((triggerSessionStatus env st instanceId status d).2).reconnectAttempts =
      st.reconnectAttempts := by
  cases h : alookup st.db instanceId with
  | none => simp [triggerSessionStatus, h]
  | some r => cases hu : r.webhookUrl <;> simp [triggerSessionStatus, h, hu]

@[simp] theorem trigger_delays (env : Env) (st : ServiceState)
    (instanceId status : String) (d : List (String × Option String)) :
    ((triggerSessionStatus env st instanceId status d).2).delays =
      st.delays := by
  cases h : alookup st.db instanceId with
  | none => simp [triggerSessionStatus, h]
  | some r => cases hu : r.webhookUrl <;> simp [triggerSessionStatus, h, hu]

@[simp] theorem trigger_sessions (env : Env) (st : ServiceState)
    (instanceId status : String) (d : List (String × Option String)) :
    ((triggerSessionStatus env st instanceId status d).2).sessions =
      st.sessions := by
  cases h : alookup st.db instanceId with
  | none => simp [triggerSessionStatus, h]
  | some r => cases hu : r.webhookUrl <;> simp [triggerSessionStatus, h, hu]

@[simp] theorem trigger_sessionFiles (env : Env) (st : ServiceState)
    (instanceId status : String) (d : List (String × Option String)) :
    ((triggerSessionStatus env st instanceId status d).2).sessionFiles =
      st.sessionFiles := by
  cases h : alookup st.db instanceId with
  | none => simp [triggerSessionStatus, h]
  | some r => cases hu : r.webhookUrl <;> simp [triggerSessionStatus, h, hu]

@[simp] theorem trigger_logouts (env : Env) (st : ServiceState)
    (instanceId status : String) (d : List (String × Option String)) :
    ((triggerSessionStatus env st instanceId status d).2).logouts =
      st.logouts := by
  cases h : alookup st.db instanceId with
  | none => simp [triggerSessionStatus, h]
  | some r => cases hu : r.webhookUrl <;> simp [triggerSessionStatus, h, hu]

@[simp] theorem trigger_nextSocket (env : Env) (st : ServiceState)
    (instanceId status : String) (d : List (String × Option String)) :
    ((triggerSessionStatus env st instanceId status d).2).nextSocket =
      st.nextSocket := by
  cases h : alookup st.db instanceId with
  | none => simp [triggerSessionStatus, h]
  | some r => cases hu : r.webhookUrl <;> simp [triggerSessionStatus, h, hu]

@[simp] theorem init_db (st : ServiceState) (instanceId : String) :
    (init st instanceId).db = st.db := by
  unfold init; split <;> rfl

@[simp] theorem init_reconnectAttempts (st : ServiceState)
    (instanceId : String) :
    (init st instanceId).reconnectAttempts = st.reconnectAttempts := by
  unfold init; split <;> rfl

@[simp] theorem init_delays (st : ServiceState) (instanceId : String) :
    (init st instanceId).delays = st.delays := by
  unfold init; split <;> rfl

@[simp] theorem init_wh (st : ServiceState) (instanceId : String) :
    (init st instanceId).wh = st.wh := by
  unfold init; split <;> rfl

@[simp] theorem init_logouts (st : ServiceState) (instanceId : String) :
    (init st instanceId).logouts = st.logouts := by
  unfold init; split <;> rfl

@[simp] theorem init_sessions (st : ServiceState) (instanceId : String) :
    (init st instanceId).sessions =
      st.sessions ++ [(st.nextSocket, instanceId)] := by
  unfold init; split <;> rfl

@[simp] theorem init_instances (st : ServiceState) (instanceId : String) :
    (init st instanceId).instances =
      ainsert st.instances instanceId
        ⟨some st.nextSocket, none, none, false, none⟩ := by
  unfold init; split <;> rfl

@[simp] theorem init_nextSocket (st : ServiceState) (instanceId : String) :
    (init st instanceId).nextSocket = st.nextSocket + 1 := by
  unfold init; split <;> rfl

theorem alookup_upsertDb_self (db : List (String × DbInstance))
    (instanceId : String) (upd : DbInstance → DbInstance) (cr : DbInstance) :
    alookup (upsertDb db instanceId upd cr) instanceId =
      some (match alookup db instanceId with
            | some r => upd r
            | none => cr) := by
  unfold upsertDb
  cases h : alookup db instanceId <;> simp [alookup_ainsert_self]

@[simp] theorem addToRetryQueue_logs (st : WebhookState) (wid url : String)
    (p : Payload) (iid : Option String) :
    (addToRetryQueue st wid url p iid).logs = st.logs := by
  by_cases h : (alookup st.retryAttempts wid).getD 0 < maxRetries <;>
    simp [addToRetryQueue, h]

@[simp] theorem addToRetryQueue_sent (st : WebhookState) (wid url : String)
    (p : Payload) (iid : Option String) :
    (addToRetryQueue st wid url p iid).sent = st.sent := by
  by_cases h : (alookup st.retryAttempts wid).getD 0 < maxRetries <;>
    simp [addToRetryQueue, h]

theorem closeBlock_db (env : Env) (st : ServiceState) (instanceId : String)
    (lo : Bool) :
    (closeBlock env st instanceId lo).db =
      upsertDb st.db instanceId
        (fun r => { r with status := "disconnected", qrCode := none,
                           pairingCode := none })
        { emptyDb instanceId with status := "disconnected" } := by
  simp only [closeBlock]
  split
  · simp
  · split <;> simp

theorem qrBlock_db (env : Env) (st : ServiceState) (instanceId q : String) :
    (qrBlock env st instanceId q).db =
      upsertDb st.db instanceId
        (fun r => { r with status := "qr", qrCode := some (dataUrl q) })
        { emptyDb instanceId with status := "qr",
                                  qrCode := some (dataUrl q) } := by
  simp [qrBlock]

theorem openBlock_db (env : Env) (st : ServiceState) (instanceId : String)
    (user : Option String) :
    (openBlock env st instanceId user).db =
      upsertDb st.db instanceId
        (fun r => { r with status := "connected", phoneNumber := phoneOf user,
                           qrCode := none })
        { emptyDb instanceId with status := "connected",
                                  phoneNumber := phoneOf user } := by
  simp [openBlock]

/-! ### Claim C1 -/

/-- C1 counterexample: after `init`, a QR event and then a successful
pairing-code request, the persisted instance row carries BOTH a non-null
`qrCode` and a non-null `pairingCode` — the QR upsert
(`whatsappService.js:538`) and the pairing upsert
(`whatsappService.js:1245`) each set their own field without clearing the
other, refuting the exactly-one-of invariant on a reachable state. -/
theorem C1_counterexample :
    ((alookup ((requestPairingCode
        (handleConnectionUpdate envOk (init emptyServiceState "a") "a"
          ⟨none, false, some "QR1"⟩ none)
        "a" "+62" true (some 0) (.ok "PAIR")).2).db "a").map
      fun r => (r.qrCode.isSome && r.pairingCode.isSome)) = some true := by
  decide

/-- C1 (amended): `qrCode` and `pairingCode` are cleared together only by a
connection close; a QR event sets `qrCode` and leaves `pairingCode` as it
was, the connection-open upsert clears `qrCode` but leaves `pairingCode` as
it was, and a successful pairing-code request sets `pairingCode` and leaves
`qrCode` as it was — so the two fields can be simultaneously non-null. -/
theorem C1_qr_pairing_not_exclusive :
    (∀ env st instanceId lo,
      ((alookup (closeBlock env st instanceId lo).db instanceId).map
        fun r => (r.qrCode, r.pairingCode)) = some (none, none))
  ∧ (∀ env st instanceId q,
      ((alookup (qrBlock env st instanceId q).db instanceId).map
        fun r => (r.qrCode, r.pairingCode)) =
      some (some (dataUrl q),
            (alookup st.db instanceId).bind DbInstance.pairingCode))
  ∧ (∀ env st instanceId user,
      ((alookup (openBlock env st instanceId user).db instanceId).map
        fun r => (r.qrCode, r.pairingCode)) =
      some (none, (alookup st.db instanceId).bind DbInstance.pairingCode))
  ∧ (∀ st instanceId ph io ua c m s,
      alookup st.instances instanceId = some m → m.socket = some s →
      ((alookup ((requestPairingCode st instanceId ph io ua (.ok c)).2).db
          instanceId).map fun r => (r.qrCode, r.pairingCode)) =
      some ((alookup st.db instanceId).bind DbInstance.qrCode, some c)) := by
  refine ⟨?_, ?_, ?_, ?_⟩
  · intro env st instanceId lo
    rw [closeBlock_db, alookup_upsertDb_self]
    cases alookup st.db instanceId <;> simp [emptyDb]
  · intro env st instanceId q
    rw [qrBlock_db, alookup_upsertDb_self]
    cases alookup st.db instanceId <;> simp [emptyDb]
  · intro env st instanceId user
    rw [openBlock_db, alookup_upsertDb_self]
    cases alookup st.db instanceId <;> simp [emptyDb]
  · intro st instanceId ph io ua c m s hm hs
    simp [requestPairingCode, hm, hs, alookup_upsertDb_self]
    cases alookup st.db instanceId <;> simp [emptyDb]

/-- Witness for the amended C1: a logged-out close clears both fields, and
a pairing-code request on a socketed instance sets only `pairingCode`. -/
theorem C1_qr_pairing_not_exclusive_witness :
    ((alookup (closeBlock envOk emptyServiceState "a" true).db "a").map
      fun r => (r.qrCode, r.pairingCode)) = some (none, none) ∧
    ((alookup ((requestPairingCode stSock "a" "+62" true (some 0)
        (.ok "P")).2).db "a").map
      fun r => (r.qrCode, r.pairingCode)) = some (none, some "P") := by
  refine ⟨C1_qr_pairing_not_exclusive.1 envOk emptyServiceState "a" true, ?_⟩
  exact C1_qr_pairing_not_exclusive.2.2.2 stSock "a" "+62" true (some 0) "P"
    ⟨some 0, none, none, false, none⟩ 0 rfl rfl

/-! ### Claim C2 -/

/-- C2 counterexample: `init` on instance `a`, a connection-open event
(status connected), then a second `init` call.  The second call creates
transport session 1 while session 0 is still live and never logged out —
`init` neither returns the existing state nor tears the old session down,
so a duplicate transport session exists. -/
theorem C2_counterexample :
    liveSessions (handleConnectionUpdate envOk (init emptyServiceState "a")
      "a" ⟨some "open", false, none⟩ none) "a" = [0] ∧
    liveSessions (init (handleConnectionUpdate envOk
      (init emptyServiceState "a") "a" ⟨some "open", false, none⟩ none) "a")
      "a" = [0, 1] ∧
    ¬ (liveSessions (init (handleConnectionUpdate envOk
      (init emptyServiceState "a") "a" ⟨some "open", false, none⟩ none) "a")
      "a").length ≤ 1 := by
  refine ⟨by decide, by decide, by decide⟩

/-- C2 (amended): `init(instanceId)` unconditionally opens a fresh
transport session and overwrites the registry entry with a fresh runtime
record, issuing no logout for any previous socket — it never returns the
existing state, and the `forceFresh` flag passed by `requestPairingCode`
is ignored because `init` takes only the instance id. -/
theorem C2_init_always_creates_session (st : ServiceState)
    (instanceId : String) :
    (init st instanceId).sessions =
      st.sessions ++ [(st.nextSocket, instanceId)] ∧
    (init st instanceId).logouts = st.logouts ∧
    alookup (init st instanceId).instances instanceId =
      some ⟨some st.nextSocket, none, none, false, none⟩ := by
  simp [alookup_ainsert_self]

/-! ### Claim C5 -/

/-- C5 counterexample: with `reconnectAttempts = 2` a recoverable close
waits exactly the fixed `reconnectInterval` of 5000 ms before
reinitializing — not `attempts × baseDelay` (which would be 10000 ms
before, or 15000 ms after, the increment). -/
theorem C5_counterexample :
    (closeBlock envOk
      { emptyServiceState with reconnectAttempts := [("a", 2)] }
      "a" false).delays = [5000] ∧
    alookup (closeBlock envOk
      { emptyServiceState with reconnectAttempts := [("a", 2)] }
      "a" false).reconnectAttempts "a" = some 3 ∧
    ¬ ([5000] : List Nat) = [2 * 5000] ∧
    ¬ ([5000] : List Nat) = [3 * 5000] := by
  refine ⟨by decide, by decide, by decide, by decide⟩

/-- C5 (amended): on a recoverable close with the attempt count below the
maximum, the state machine increments `reconnectAttempts`, waits the FIXED
`reconnectInterval` (5000 ms, independent of the attempt number), and then
reinitializes the transport session. -/
theorem C5_reconnect_fixed_delay (env : Env) (st : ServiceState)
    (instanceId : String)
    (h : (alookup st.reconnectAttempts instanceId).getD 0 <
      maxReconnectAttempts) :
    alookup (closeBlock env st instanceId false).reconnectAttempts
      instanceId =
      some ((alookup st.reconnectAttempts instanceId).getD 0 + 1) ∧
    (closeBlock env st instanceId false).delays =
      st.delays ++ [reconnectInterval] ∧
    (closeBlock env st instanceId false).sessions =
      st.sessions ++ [(st.nextSocket, instanceId)] := by
  simp [closeBlock, h, alookup_ainsert_self]

/-- Witness for the amended C5 at two prior attempts. -/
theorem C5_reconnect_fixed_delay_witness :
    (alookup ({ emptyServiceState with
        reconnectAttempts := [("a", 2)] } : ServiceState).reconnectAttempts
      "a").getD 0 < maxReconnectAttempts ∧
    (closeBlock envOk
      { emptyServiceState with reconnectAttempts := [("a", 2)] }
      "a" false).delays = [reconnectInterval] := by
  refine ⟨by decide, ?_⟩
  exact (C5_reconnect_fixed_delay envOk
    { emptyServiceState with reconnectAttempts := [("a", 2)] } "a"
    (by decide)).2.1

/-! ### Claim C3 -/

/-- C3: for every webhook delivery whose first HTTP attempt fails (any
oracle whose posts all fail), the engine performs exactly retries 1, 2, 3
scheduled `5s`, `10s`, `15s` after the respectively prior attempt — 4 HTTP
attempts in total — and afterwards the delivery id is dropped from the
retry queue, the retry counter is cleared and no further timer is
pending. -/
theorem C3_retry_schedule (env : Env) (url : String) (p : Payload)
    (iid : Option String) (hfail : ∀ n, resolves (env.http n) = false) :
    ((runTimers env 10 (triggerWebhook env emptyWebhookState url p iid).2).sent.map
      fun r => (r.retryAttempt, r.delay)) =
      [(none, 0), (some 1, 5000), (some 2, 10000), (some 3, 15000)] ∧
    alookup (runTimers env 10 (triggerWebhook env emptyWebhookState url p iid).2).queue
      (env.wid 0) = none ∧
    (runTimers env 10 (triggerWebhook env emptyWebhookState url p iid).2).timers = [] ∧
    alookup (runTimers env 10 (triggerWebhook env emptyWebhookState url p iid).2).retryAttempts
      (env.wid 0) = none := by
  simp [triggerWebhook, addToRetryQueue, retryWebhook, runTimers, updateWebhookLog,
    logWebhook, alookup, ainsert, aerase, maxRetries, retryDelay, emptyWebhookState, hfail]

/-- Witness for C3 at the always-unreachable endpoint oracle. -/
theorem C3_retry_schedule_witness :
    (∀ n, resolves (envFail.http n) = false) ∧
    ((runTimers envFail 10 (triggerWebhook envFail emptyWebhookState
        "https://example.com/hook" ⟨"session.status", some "a", []⟩
        (some "a")).2).sent.map fun r => (r.retryAttempt, r.delay)) =
      [(none, 0), (some 1, 5000), (some 2, 10000), (some 3, 15000)] := by
  refine ⟨fun n => rfl, ?_⟩
  exact (C3_retry_schedule envFail "https://example.com/hook"
    ⟨"session.status", some "a", []⟩ (some "a") (fun n => rfl)).1

/-! ### Claim C4 -/

/-- C4 counterexample: endpoint answers 500 on the first attempt and 200 on
the second.  The single log row of the delivery moves from
`(failed, attempts = 1)` to `(success, attempts = 1)` — NOT to
`attempts = 2` as the claim states: `retryWebhook` writes
`attempts: webhook.attempts`, the retry index, which equals 1 on the first
retry just as the initial attempt logged 1. -/
theorem C4_counterexample :
    (((triggerWebhook envFlaky emptyWebhookState "https://example.com/hook"
        ⟨"session.status", some "a", []⟩ (some "a")).2).logs.map
      fun l => (l.webhookId, l.status, l.attempts)) = [("w0", "failed", 1)] ∧
    ((runTimers envFlaky 10 (triggerWebhook envFlaky emptyWebhookState
        "https://example.com/hook" ⟨"session.status", some "a", []⟩
        (some "a")).2).logs.map
      fun l => (l.webhookId, l.status, l.attempts)) = [("w0", "success", 1)] ∧
    ¬ ((runTimers envFlaky 10 (triggerWebhook envFlaky emptyWebhookState
        "https://example.com/hook" ⟨"session.status", some "a", []⟩
        (some "a")).2).logs.map fun l => l.attempts) = [2] := by
  refine ⟨by decide, by decide, by decide⟩

/-- C4 (amended): when the first attempt fails and the first retry
succeeds, the delivery keeps a single log row under its one delivery id,
updated in place from `status = failed` to `status = success`; the recorded
`attempts` counter stays 1 on the first retry (it stores the retry index,
not the total attempt count), and the delivery is dropped from the retry
queue with no further timer pending. -/
theorem C4_retry_updates_log_in_place (env : Env) (url : String) (p : Payload)
    (iid : Option String)
    (h0 : resolves (env.http 0) = false) (h1 : resolves (env.http 1) = true) :
    (((triggerWebhook env emptyWebhookState url p iid).2).logs.map
      fun l => (l.webhookId, l.status, l.attempts)) = [(env.wid 0, "failed", 1)] ∧
    ((runTimers env 10 (triggerWebhook env emptyWebhookState url p iid).2).logs.map
      fun l => (l.webhookId, l.status, l.attempts)) = [(env.wid 0, "success", 1)] ∧
    (runTimers env 10 (triggerWebhook env emptyWebhookState url p iid).2).timers = [] ∧
    alookup (runTimers env 10 (triggerWebhook env emptyWebhookState url p iid).2).queue
      (env.wid 0) = none := by
  simp [triggerWebhook, addToRetryQueue, retryWebhook, runTimers, updateWebhookLog,
    logWebhook, alookup, ainsert, aerase, maxRetries, retryDelay, emptyWebhookState, h0, h1]

/-- Witness for the amended C4 at the 500-then-200 oracle. -/
theorem C4_retry_updates_log_in_place_witness :
    resolves (envFlaky.http 0) = false ∧ resolves (envFlaky.http 1) = true ∧
    ((runTimers envFlaky 10 (triggerWebhook envFlaky emptyWebhookState
        "https://e.com" ⟨"session.status", some "a", []⟩ none).2).logs.map
      fun l => (l.webhookId, l.status, l.attempts)) =
      [(envFlaky.wid 0, "success", 1)] := by
  refine ⟨by decide, by decide, ?_⟩
  exact (C4_retry_updates_log_in_place envFlaky "https://e.com"
    ⟨"session.status", some "a", []⟩ none (by decide) (by decide)).2.1

/-! ### Claim C6 -/

/-- C6: when the instance has no `webhookUrl` (or no database row at all),
every event trigger short-circuits: it returns `null` and leaves the whole
state — HTTP trace, webhook logs, queues — untouched, so zero HTTP requests
are performed, zero log rows are written and nothing is recorded as a
failure.  `triggerSessionStatus` and `triggerMessageReceived` are stated;
every other `trigger*` method of `WebhookService` opens with the
syntactically identical `if (!instance?.webhookUrl) return null` guard. -/
theorem C6_skip_without_webhookUrl (env : Env) (st : ServiceState)
    (instanceId status : String) (addl msgData : List (String × Option String))
    (h : (alookup st.db instanceId).bind DbInstance.webhookUrl = none) :
    triggerSessionStatus env st instanceId status addl = (none, st) ∧
    triggerMessageReceived env st instanceId msgData = (none, st) := by
  cases hdb : alookup st.db instanceId with
  | none => simp [triggerSessionStatus, triggerMessageReceived, hdb]
  | some r =>
      rw [hdb, Option.some_bind] at h
      simp [triggerSessionStatus, triggerMessageReceived, hdb, h]

/-- Witness for C6: an instance row with `webhookUrl` unset. -/
theorem C6_skip_without_webhookUrl_witness :
    triggerSessionStatus envOk
        { emptyServiceState with db := [("a", emptyDb "a")] } "a" "connected" [] =
      (none, { emptyServiceState with db := [("a", emptyDb "a")] }) ∧
    triggerMessageReceived envOk
        { emptyServiceState with db := [("a", emptyDb "a")] } "a" [] =
      (none, { emptyServiceState with db := [("a", emptyDb "a")] }) := by
  exact C6_skip_without_webhookUrl envOk
    { emptyServiceState with db := [("a", emptyDb "a")] } "a" "connected" [] [] rfl

/-! ### Claim C10 -/

/-- C10: `triggerWebhook` is total (the JS method catches every error) and
for every oracle, state, url, payload and instance id it returns the
generated delivery id; on a 2xx response it reports `success = true` with
the response status and schedules no retry (timers and queue unchanged),
and on any other outcome it reports `success = false` with the error
detail and enqueues a retry task under the same delivery id (first retry,
5s timer), provided the id is fresh in the retry-counter map. -/
theorem C10_triggerWebhook_contract (env : Env) (st : WebhookState)
    (url : String) (p : Payload) (iid : Option String)
    (hfresh : alookup st.retryAttempts (env.wid st.nextWid) = none) :
    ((triggerWebhook env st url p iid).1).webhookId = env.wid st.nextWid ∧
    ((triggerWebhook env st url p iid).2).sent.length = st.sent.length + 1 ∧
    (resolves (env.http st.sent.length) = true →
      ((triggerWebhook env st url p iid).1).success = true ∧
      ((triggerWebhook env st url p iid).1).statusCode =
        some (respStatus (env.http st.sent.length)) ∧
      ((triggerWebhook env st url p iid).2).timers = st.timers ∧
      ((triggerWebhook env st url p iid).2).queue = st.queue) ∧
    (resolves (env.http st.sent.length) = false →
      ((triggerWebhook env st url p iid).1).success = false ∧
      ((triggerWebhook env st url p iid).1).error =
        some (errMsg (env.http st.sent.length)) ∧
      ((triggerWebhook env st url p iid).2).timers =
        st.timers ++ [⟨env.wid st.nextWid, 5000⟩] ∧
      alookup ((triggerWebhook env st url p iid).2).queue (env.wid st.nextWid) =
        some ⟨url, p, iid, 1, 5000⟩) := by
  cases hres : resolves (env.http st.sent.length) <;>
    simp [triggerWebhook, addToRetryQueue, logWebhook, hres, hfresh,
      maxRetries, retryDelay, alookup_ainsert_self]

/-! ### Claim C7 -/

/-- C7: a connection close with reason logged-out, on an instance with a
configured `webhookUrl` and a registry entry, appends exactly one webhook
log row — a `session.status` delivery whose payload carries
`status = disconnected` and `reason = logged_out` — performs exactly one
immediate HTTP post, creates no transport session and performs no backoff
wait (no reconnect is scheduled), clears the reconnect counter, removes the
instance's on-disk session artifacts, and nulls out the in-memory socket,
QR and user info. -/
theorem C7_loggedout_close (env : Env) (st : ServiceState)
    (instanceId url : String) (r : DbInstance) (m : MemInstance)
    (hdb : alookup st.db instanceId = some r)
    (hurl : r.webhookUrl = some url)
    (hm : alookup st.instances instanceId = some m) :
    ((closeBlock env st instanceId true).wh.logs.map
      fun l => (l.event, l.payload)) =
      (st.wh.logs.map fun l => (l.event, l.payload)) ++
      [("session.status",
        (⟨"session.status", some instanceId,
         [("status", some "disconnected"),
          ("reason", some "logged_out")]⟩ : Payload))] ∧
    (closeBlock env st instanceId true).wh.sent.length =
      st.wh.sent.length + 1 ∧
    (closeBlock env st instanceId true).sessions = st.sessions ∧
    (closeBlock env st instanceId true).delays = st.delays ∧
    (closeBlock env st instanceId true).reconnectAttempts =
      aerase st.reconnectAttempts instanceId ∧
    (closeBlock env st instanceId true).sessionFiles =
      st.sessionFiles.filter (fun f => f ≠ instanceId) ∧
    alookup (closeBlock env st instanceId true).instances instanceId =
      some ⟨none, none, none, m.appStateReady, none⟩ := by
  cases hres : resolves (env.http st.wh.sent.length) <;>
    simp [closeBlock, setMem, triggerSessionStatus, triggerWebhook, logWebhook,
      addToRetryQueue_logs, addToRetryQueue_sent, hm, hdb, hurl, hres,
      alookup_upsertDb_self, alookup_ainsert_self]

/-- Witness for C7 at a concrete connected, webhook-configured instance. -/
theorem C7_loggedout_close_witness :
    ((closeBlock envOk stHook "a" true).wh.logs.map
      fun l => (l.event, l.payload)) =
      [("session.status",
        (⟨"session.status", some "a",
         [("status", some "disconnected"),
          ("reason", some "logged_out")]⟩ : Payload))] ∧
    (closeBlock envOk stHook "a" true).sessions = stHook.sessions ∧
    (closeBlock envOk stHook "a" true).delays = [] ∧
    (closeBlock envOk stHook "a" true).sessionFiles = [] ∧
    alookup (closeBlock envOk stHook "a" true).instances "a" =
      some ⟨none, none, none, false, none⟩ := by
  have h := C7_loggedout_close envOk stHook "a" "https://example.com/hook"
    dbHook ⟨some 0, none, none, false, none⟩ rfl rfl rfl
  exact ⟨h.1, h.2.2.1, h.2.2.2.1, h.2.2.2.2.2.1, h.2.2.2.2.2.2⟩

/-! ### Claim C8 -/

/-- C8 counterexample: `await instance.socket.logout()` at
`whatsappService.js:1273` is not wrapped in try/catch, so a failing logout
propagates to the caller of `deleteInstance` as a fatal error and no
in-memory cleanup happens — refuting that every failure during deletion is
logged and never propagated. -/
theorem C8_counterexample :
    deleteInstance stSock "a" (.error "logout failed") true =
      (.error "logout failed", stSock) := by
  rfl

/-- C8 (amended): `deleteInstance` issues a logout when a live socket
exists and — provided the logout command succeeds, or no socket exists —
removes the registry entry, the reconnect counter and the readiness flag,
and best-effort removes the on-disk session artifacts (an `fs.rmdir`
failure is caught and only logged, leaving the result unchanged); a
failure of the logout command itself, however, propagates to the caller
with no cleanup performed. -/
theorem C8_delete_cleanup :
    (∀ (st : ServiceState) (instanceId : String) (m : MemInstance) (s : Nat)
        (rmOk : Bool), alookup st.instances instanceId = some m →
      m.socket = some s →
      deleteInstance st instanceId (.ok ()) rmOk =
        (.ok (), { st with
          logouts := st.logouts ++ [s],
          instances := aerase st.instances instanceId,
          reconnectAttempts := aerase st.reconnectAttempts instanceId,
          appStateReady := aerase st.appStateReady instanceId,
          sessionFiles := if rmOk then
              st.sessionFiles.filter (fun f => f ≠ instanceId)
            else st.sessionFiles }))
  ∧ (∀ (st : ServiceState) (instanceId : String) (lr : Except String Unit)
        (rmOk : Bool),
      (alookup st.instances instanceId).bind MemInstance.socket = none →
      deleteInstance st instanceId lr rmOk =
        (.ok (), { st with
          instances := aerase st.instances instanceId,
          reconnectAttempts := aerase st.reconnectAttempts instanceId,
          appStateReady := aerase st.appStateReady instanceId,
          sessionFiles := if rmOk then
              st.sessionFiles.filter (fun f => f ≠ instanceId)
            else st.sessionFiles }))
  ∧ (∀ (st : ServiceState) (instanceId e : String) (m : MemInstance)
        (s : Nat) (rmOk : Bool), alookup st.instances instanceId = some m →
      m.socket = some s →
      deleteInstance st instanceId (.error e) rmOk = (.error e, st)) := by
  refine ⟨?_, ?_, ?_⟩
  · intro st instanceId m s rmOk hm hs
    cases rmOk <;> simp [deleteInstance, hm, hs]
  · intro st instanceId lr rmOk h
    cases hm : alookup st.instances instanceId with
    | none => cases rmOk <;> simp [deleteInstance, hm]
    | some m =>
        rw [hm, Option.some_bind] at h
        cases rmOk <;> simp [deleteInstance, hm, h]
  · intro st instanceId e m s rmOk hm hs
    simp [deleteInstance, hm, hs]

/-- Witness for the amended C8: successful logout clears all in-memory
state, and a failed `rmdir` still yields a successful result. -/
theorem C8_delete_cleanup_witness :
    deleteInstance stSock "a" (.ok ()) true =
      (.ok (), { stSock with
        logouts := [0],
        instances := [],
        reconnectAttempts := [],
        appStateReady := [],
        sessionFiles := [] }) ∧
    deleteInstance stSock "a" (.ok ()) false =
      (.ok (), { stSock with
        logouts := [0],
        instances := [],
        reconnectAttempts := [],
        appStateReady := [],
        sessionFiles := [] }) := by
  exact ⟨C8_delete_cleanup.1 stSock "a" ⟨some 0, none, none, false, none⟩ 0
      true rfl rfl,
    C8_delete_cleanup.1 stSock "a" ⟨some 0, none, none, false, none⟩ 0
      false rfl rfl⟩

/-! ### Claim C9 -/

/-- C9 counterexample: instance `a` has a socket whose `user` field never
appears; `requestPairingCode` polls the full 10 × 1 s window and then
PROCEEDS to request the pairing code from the transport, returning it —
it does not fail with a NotConnectable error. -/
theorem C9_counterexample :
    (requestPairingCode stSock "a" "+6281234" true none
      (.ok "ABCD-1234")).1 = .ok "ABCD-1234" ∧
    (requestPairingCode stSock "a" "+6281234" true none
      (.ok "ABCD-1234")).2.delays = List.replicate 10 1000 := by
  refine ⟨rfl, rfl⟩

/-- C9 (amended): `requestPairingCode` fails only when no socket can be
obtained at all (the reinitialization fails and its error propagates) or
when the transport's own pairing-code command fails; whenever the instance
has a socket, the call returns exactly the transport's pairing outcome,
even if the socket never becomes connected within the 10 × 1 s polling
window (in which case the full window is waited out first). -/
theorem C9_pairing_proceeds :
    (∀ (st : ServiceState) (instanceId ph : String) (io : Bool)
        (ua : Option Nat) (pr : Except String String) (m : MemInstance)
        (s : Nat), alookup st.instances instanceId = some m →
      m.socket = some s →
      (requestPairingCode st instanceId ph io ua pr).1 = pr)
  ∧ (∀ (st : ServiceState) (instanceId ph : String)
        (pr : Except String String) (m : MemInstance) (s : Nat),
      alookup st.instances instanceId = some m → m.socket = some s →
      (requestPairingCode st instanceId ph true none pr).2.delays =
        st.delays ++ List.replicate 10 1000)
  ∧ (∀ (st : ServiceState) (instanceId ph : String) (ua : Option Nat)
        (pr : Except String String),
      (alookup st.instances instanceId).bind MemInstance.socket = none →
      (requestPairingCode st instanceId ph false ua pr).1 =
        .error "init failed") := by
  refine ⟨?_, ?_, ?_⟩
  · intro st instanceId ph io ua pr m s hm hs
    cases pr <;> simp [requestPairingCode, hm, hs]
  · intro st instanceId ph pr m s hm hs
    cases pr <;> simp [requestPairingCode, hm, hs]
  · intro st instanceId ph ua pr h
    cases hm : alookup st.instances instanceId with
    | none => simp [requestPairingCode, hm]
    | some m =>
        rw [hm, Option.some_bind] at h
        simp [requestPairingCode, hm, h]

/-- Witness for the amended C9: a transport failure propagates, and the
never-connected socket case waits the full polling window. -/
theorem C9_pairing_proceeds_witness :
    (requestPairingCode stSock "a" "+62" true (some 0)
      (.error "transport down")).1 = .error "transport down" ∧
    (requestPairingCode stSock "a" "+62" true none
      (.ok "WXYZ")).2.delays = List.replicate 10 1000 := by
  refine ⟨C9_pairing_proceeds.1 stSock "a" "+62" true (some 0)
    (.error "transport down") ⟨some 0, none, none, false, none⟩ 0 rfl rfl, ?_⟩
  exact C9_pairing_proceeds.2.1 stSock "a" "+62" (.ok "WXYZ")
    ⟨some 0, none, none, false, none⟩ 0 rfl rfl

/-- Witness for C10 on the failing oracle: the caller gets a structured
failure result and a retry is enqueued under the same id. -/
theorem C10_triggerWebhook_contract_witness :
    ((triggerWebhook envFail emptyWebhookState "https://e.com"
        ⟨"session.status", some "a", []⟩ (some "a")).1).webhookId =
      envFail.wid 0 ∧
    ((triggerWebhook envFail emptyWebhookState "https://e.com"
        ⟨"session.status", some "a", []⟩ (some "a")).1).success = false ∧
    ((triggerWebhook envFail emptyWebhookState "https://e.com"
        ⟨"session.status", some "a", []⟩ (some "a")).2).timers =
      [⟨envFail.wid 0, 5000⟩] := by
  have h := C10_triggerWebhook_contract envFail emptyWebhookState
    "https://e.com" ⟨"session.status", some "a", []⟩ (some "a") rfl
  exact ⟨h.1, (h.2.2.2 rfl).1, (h.2.2.2 rfl).2.2.1⟩

end Wagw
